import Mathlib

/-!
# Package `signature` of notation-core-go: error taxonomy and signing-time policy

A shallow embedding of `signature/errors.go`, and of the signer info, the signing-scheme
policy and the sign request of `signature/types.go` as the specification describes them,
together with the properties the specification states about them.

Conventions of the embedding

* A Go `string` is a Lean `String` (a sequence of Unicode scalar values), so the strings
  covered are the valid UTF-8 ones.
* The interface type `error` is `Option ErrorValue`: `none` is the nil interface, and a
  non-nil value is known by the identity of its dynamic value and by what its `Error()`
  method returns.
* A method that can end in a run-time panic returns `Option String`, with `none` for the
  panic; a method that cannot panic returns `String`.
* Methods declared on a pointer receiver are embedded on the struct the pointer refers to;
  where a claim speaks of the receiver after the call, the method returns that state too.
* `fmt.Sprintf` is written out as concatenation: verb `%s` inserts its string argument
  unchanged and verb `%q` inserts `strconv.Quote` of it.
-/

namespace signature

/-! ## The Go notions the package relies on -/

/-- A non-nil value of the interface type `error`: the identity of the dynamic value it
holds and the string its `Error()` method returns. -/
structure ErrorValue where
  ident : Nat
  message : String
deriving DecidableEq, Repr

/-- Method `Error()` of a non-nil `error` value. -/
def ErrorValue.Error (v : ErrorValue) : String := v.message

/-- The interface type `error`; `none` is `nil`. -/
abbrev error := Option ErrorValue

/-- The double quote character, U+0022. -/
def dquote : Char := Char.ofNat 0x22

/-- The backslash character, U+005C. -/
def backslash : Char := Char.ofNat 0x5C

/-- Digits used by `strconv` for hexadecimal escapes. -/
def lowerhex : String := "0123456789abcdef"

/-- The digit `lowerhex[n & 0xF]`. -/
def hexDigit (n : Nat) : Char := lowerhex.data.getD (n % 16) '0'

/-- Function `strconv.IsPrint`: the Latin-1 fast path is written out; above U+00FF the
answer comes from the Unicode range tables of package `strconv`, which enter as the
parameter `printTable`. -/
def IsPrint (printTable : Char → Bool) (r : Char) : Bool :=
  if r.toNat ≤ 0xFF then
    if 0x20 ≤ r.toNat ∧ r.toNat ≤ 0x7E then true
    else if 0xA1 ≤ r.toNat ∧ r.toNat ≤ 0xFF then r.toNat != 0xAD
    else false
  else printTable r

/-- Function `utf8.ValidRune` on a code point. -/
def ValidRune (r : Nat) : Bool :=
  r < 0xD800 || (0xDFFF < r && r ≤ 0x10FFFF)

/-- The bytes `strconv.appendEscapedRune` appends for rune `r` when the flags `ASCIIonly`
and `graphicOnly` are both false, which is how `strconv.Quote` calls it. -/
def escapedRune (printTable : Char → Bool) (r : Char) (quote : Char) : List Char :=
  if r = quote ∨ r = backslash then [backslash, r]
  else if IsPrint printTable r then [r]
  else if r.toNat = 0x07 then [backslash, 'a']
  else if r.toNat = 0x08 then [backslash, 'b']
  else if r.toNat = 0x0C then [backslash, 'f']
  else if r.toNat = 0x0A then [backslash, 'n']
  else if r.toNat = 0x0D then [backslash, 'r']
  else if r.toNat = 0x09 then [backslash, 't']
  else if r.toNat = 0x0B then [backslash, 'v']
  else if r.toNat < 0x20 ∨ r.toNat = 0x7F then
    [backslash, 'x', hexDigit (r.toNat / 16), hexDigit r.toNat]
  else
    let c := if ValidRune r.toNat then r.toNat else 0xFFFD
    if c < 0x10000 then
      [backslash, 'u', hexDigit (c / 4096), hexDigit (c / 256), hexDigit (c / 16), hexDigit c]
    else
      [backslash, 'U', hexDigit (c / 268435456), hexDigit (c / 16777216),
        hexDigit (c / 1048576), hexDigit (c / 65536), hexDigit (c / 4096),
        hexDigit (c / 256), hexDigit (c / 16), hexDigit c]

/-- Function `strconv.appendEscapedRune`: the buffer with the rendering of `r` appended. -/
def appendEscapedRune (printTable : Char → Bool) (buf : List Char) (r : Char)
    (quote : Char) : List Char :=
  buf ++ escapedRune printTable r quote

/-- Function `strconv.Quote`, which is what verb `%q` of `fmt.Sprintf` prints for a string:
an opening quote, every rune of `s` passed through `appendEscapedRune`, a closing quote.
The loop of `strconv.appendQuotedWith` has one more branch, for a byte that starts no valid
UTF-8 encoding: it is decoded with width 1 as `utf8.RuneError` and printed as a backslash,
an `x` and two hexadecimal digits. A Lean `String` holds no such byte, so this function is
`strconv.Quote` on the valid UTF-8 strings only, and what is proved of it is proved of
those strings. -/
def Quote (printTable : Char → Bool) (s : String) : String :=
  String.mk
    (s.data.foldl (fun buf r => appendEscapedRune printTable buf r dquote) [dquote] ++ [dquote])

/-! ## The twelve error kinds of `errors.go` -/

/-- SignatureIntegrityError is used when the signature associated is no longer valid. -/
structure SignatureIntegrityError where
  Err : error
deriving DecidableEq, Repr

/-- Method `(*SignatureIntegrityError).Error`: it calls `e.Err.Error()` without testing
`e.Err`, so a nil `Err` ends in a nil-dereference panic (`none`). -/
def SignatureIntegrityError.Error (e : SignatureIntegrityError) : Option String :=
  match e.Err with
  | none => none
  | some err => some ("signature is invalid. Error: " ++ err.Error)

/-- Method `(*SignatureIntegrityError).Unwrap`. -/
def SignatureIntegrityError.Unwrap (e : SignatureIntegrityError) : error := e.Err

/-- InvalidSignatureError is used when Signature envelope is invalid. -/
structure InvalidSignatureError where
  Msg : String
deriving DecidableEq, Repr

/-- Method `InvalidSignatureError.Error`. -/
def InvalidSignatureError.Error (e : InvalidSignatureError) : String :=
  if e.Msg != "" then e.Msg else "signature envelope format is invalid"

/-- UnsupportedSignatureFormatError is used when Signature envelope is not supported. -/
structure UnsupportedSignatureFormatError where
  MediaType : String
deriving DecidableEq, Repr

/-- Method `(*UnsupportedSignatureFormatError).Error`. -/
def UnsupportedSignatureFormatError.Error (printTable : Char → Bool)
    (e : UnsupportedSignatureFormatError) : String :=
  "signature envelope format with media type " ++ Quote printTable e.MediaType
    ++ " is not supported"

/-- SignatureNotFoundError is used when signature envelope is not present. -/
structure SignatureNotFoundError where
deriving DecidableEq, Repr

/-- Method `SignatureNotFoundError.Error`. -/
def SignatureNotFoundError.Error (_e : SignatureNotFoundError) : String :=
  "signature envelope is not present"

/-- SignatureAuthenticityError is used when signature is not generated using trusted
certificates. -/
structure SignatureAuthenticityError where
deriving DecidableEq, Repr

/-- Method `(*SignatureAuthenticityError).Error`. -/
def SignatureAuthenticityError.Error (_e : SignatureAuthenticityError) : String :=
  "the signature's certificate chain does not contain any trusted certificate"

/-- UnsupportedSigningKeyError is used when a signing key is not supported. -/
structure UnsupportedSigningKeyError where
  Msg : String
deriving DecidableEq, Repr

/-- Method `UnsupportedSigningKeyError.Error`. -/
def UnsupportedSigningKeyError.Error (e : UnsupportedSigningKeyError) : String :=
  if e.Msg != "" then e.Msg else "signing key is not supported"

/-- InvalidArgumentError is used when an argument to a function is invalid. -/
structure InvalidArgumentError where
  Param : String
  Err : error
deriving DecidableEq, Repr

/-- Method `(*InvalidArgumentError).Error`. -/
def InvalidArgumentError.Error (printTable : Char → Bool) (e : InvalidArgumentError) :
    String :=
  match e.Err with
  | some err => Quote printTable e.Param ++ " param is invalid. Error: " ++ err.Error
  | none => Quote printTable e.Param ++ " param is invalid"

/-- Method `(*InvalidArgumentError).Unwrap`. -/
def InvalidArgumentError.Unwrap (e : InvalidArgumentError) : error := e.Err

/-- InvalidSignRequestError is used when SignRequest is invalid. -/
structure InvalidSignRequestError where
  Msg : String
deriving DecidableEq, Repr

/-- Method `(*InvalidSignRequestError).Error`. -/
def InvalidSignRequestError.Error (e : InvalidSignRequestError) : String :=
  if e.Msg != "" then e.Msg else "SignRequest is invalid"

/-- UnsupportedSignatureAlgoError is used when signing algo is not supported. -/
structure UnsupportedSignatureAlgoError where
  Alg : String
deriving DecidableEq, Repr

/-- Method `(*UnsupportedSignatureAlgoError).Error`. -/
def UnsupportedSignatureAlgoError.Error (printTable : Char → Bool)
    (e : UnsupportedSignatureAlgoError) : String :=
  "signature algorithm " ++ Quote printTable e.Alg ++ " is not supported"

/-- SignatureEnvelopeNotFoundError is used when signature envelope is not present. -/
structure SignatureEnvelopeNotFoundError where
deriving DecidableEq, Repr

/-- Method `(*SignatureEnvelopeNotFoundError).Error`. -/
def SignatureEnvelopeNotFoundError.Error (_e : SignatureEnvelopeNotFoundError) : String :=
  "signature envelope is not present"

/-- DuplicateKeyError is used when repeated key name found. -/
structure DuplicateKeyError where
  Key : String
deriving DecidableEq, Repr

/-- Method `(*DuplicateKeyError).Error`. -/
def DuplicateKeyError.Error (printTable : Char → Bool) (e : DuplicateKeyError) : String :=
  "repeated key: " ++ Quote printTable e.Key ++ " exists."

/-- TimestampError is any error related to RFC3161 Timestamp. -/
structure TimestampError where
  Msg : String
  Detail : error
deriving DecidableEq, Repr

/-- Method `(*TimestampError).Error`: the rows are the source's tests in their order,
`Msg != "" && Detail != nil`, then `Msg != ""`, then `Detail != nil`, then the default. -/
def TimestampError.Error (e : TimestampError) : String :=
  match e.Msg != "", e.Detail with
  | true, some d => "timestamp: " ++ e.Msg ++ ". Error: " ++ d.Error
  | true, _ => "timestamp: " ++ e.Msg
  | _, some d => "timestamp: " ++ d.Error
  | _, _ => "timestamp error"

/-- Method `(*TimestampError).Unwrap`. -/
def TimestampError.Unwrap (e : TimestampError) : error := e.Detail

/-! ## Signer info and the signing-scheme policy (`types.go`) -/

/-- Modelled from the spec: type `SigningScheme` of `types.go`, the "enumerated string
identifier" of a signing scheme (section 3). -/
abbrev SigningScheme := String

/-- Modelled from the spec: the signing-authority scheme `notary.x509.signingAuthority`
(section 4.2, case 1). -/
def SigningSchemeX509SigningAuthority : SigningScheme := "notary.x509.signingAuthority"

/-- Modelled from the spec: the plain scheme `notary.x509` (section 4.2, case 2). -/
def SigningSchemeX509 : SigningScheme := "notary.x509"

/-- Modelled from the spec: the timestamp type of `SignedAttributes.signingTime`
(`time.Time` in the tests), an instant counted in nanoseconds from the zero instant; the
zero value stands for an absent signing time (section 4.2, case 1). -/
structure Time where
  nanos : Int
deriving DecidableEq, Repr

/-- Modelled from the spec: whether a timestamp is the zero value, i.e. not populated. -/
def Time.IsZero (t : Time) : Bool := t.nanos == 0

/-- Modelled from the spec: `SignedAttributes` of `types.go` (section 3): the signing
scheme, the signing time and the scheme-specific extra fields. -/
structure SignedAttributes where
  SigningScheme : SigningScheme
  SigningTime : Time
  ExtendedAttributes : List (String × String)
deriving DecidableEq, Repr

/-- Modelled from the spec: the unsigned attributes of `types.go` (section 3), holding the
optional timestamp-authority token as bytes. -/
structure UnsignedAttributes where
  TimestampSignature : Option (List Nat)
deriving DecidableEq, Repr

/-- Modelled from the spec: `SignerInfo` of `types.go` (section 3): signed attributes,
unsigned attributes and the certificate chain, each certificate an opaque byte string. -/
structure SignerInfo where
  SignedAttributes : SignedAttributes
  UnsignedAttributes : UnsignedAttributes
  CertificateChain : List (List Nat)
deriving DecidableEq, Repr

/-- Modelled from the spec: the three failures of `AuthenticSigningTime` in `types.go`
(section 4.2): the signing time is absent under the signing-authority scheme, authentic
signing time is not supported under the plain scheme, and the scheme is unrecognized. Each
carries the scheme it reports. -/
inductive SigningTimeError where
  | signingTimeAbsent (scheme : SigningScheme)
  | authenticTimeNotSupported (scheme : SigningScheme)
  | unsupportedScheme (scheme : SigningScheme)
deriving DecidableEq, Repr

/-- Modelled from the spec: the message of a failure of `AuthenticSigningTime` in
`types.go`. Section 8 gives the text of the first two, with the scheme name between double
quotes; the text for an unrecognized scheme is not given and enters as `unsupportedText`. -/
def SigningTimeError.Error (unsupportedText : SigningScheme → String) :
    SigningTimeError → String
  | .signingTimeAbsent scheme =>
    "authentic signing time must be present under signing scheme \"" ++ scheme ++ "\""
  | .authenticTimeNotSupported scheme =>
    "authentic signing time not supported under signing scheme \"" ++ scheme ++ "\""
  | .unsupportedScheme scheme => unsupportedText scheme

/-- Modelled from the spec: method `AuthenticSigningTime` of `SignerInfo` in `types.go`
(section 4.2), branching on the signing scheme: the signing-authority scheme yields the
signing time when it is populated and fails when it is absent, the plain scheme always
fails, any other scheme fails as unsupported. A failure carries no timestamp. -/
def SignerInfo.AuthenticSigningTime (signerInfo : SignerInfo) :
    Except SigningTimeError Time :=
  let signingScheme := signerInfo.SignedAttributes.SigningScheme
  if signingScheme = SigningSchemeX509SigningAuthority then
    let signingTime := signerInfo.SignedAttributes.SigningTime
    if signingTime.IsZero then .error (.signingTimeAbsent signingScheme)
    else .ok signingTime
  else if signingScheme = SigningSchemeX509 then
    .error (.authenticTimeNotSupported signingScheme)
  else
    .error (.unsupportedScheme signingScheme)

/-! ## The sign request and its context (`types.go`) -/

/-- Modelled from the spec: a non-nil `context.Context`, the "value-bearing handle" a
request carries (sections 3 and 9): the background context, or a context derived from a
parent by attaching a key/value pair, as the tests of `types.go` build it. -/
inductive ContextValue where
  | background
  | withValue (parent : ContextValue) (key val : String)
deriving DecidableEq, Repr

/-- Modelled from the spec: the interface type `context.Context`; `none` is the null
context. -/
abbrev context.Context := Option ContextValue

/-- Modelled from the spec: `context.Background()`, the canonical empty context, which is
not null. -/
def context.Background : context.Context := some ContextValue.background

/-- Modelled from the spec: the value a non-nil context carries for a key; the innermost
pair attached for the key wins and the background context carries none. -/
def ContextValue.Value : ContextValue → String → Option String
  | .background, _ => none
  | .withValue parent key val, k => if k = key then some val else parent.Value k

/-- Modelled from the spec: `SignRequest` of `types.go` (section 3): the signing parameters
(key identifier, algorithm identifier, extra attributes by name, optional expiry) and the
carried context `ctx`, which may be unset. -/
structure SignRequest where
  KeyID : String
  Algorithm : String
  ExtendedAttributes : List (String × String)
  Expiry : Option Time
  ctx : context.Context
deriving DecidableEq, Repr

/-- Modelled from the spec: method `Context` of `SignRequest` in `types.go` (section 4.1):
the carried context, or the background context when none was ever attached. -/
def SignRequest.Context (r : SignRequest) : context.Context :=
  match r.ctx with
  | some c => some c
  | none => context.Background

/-- Modelled from the spec: method `WithContext` of `SignRequest` in `types.go`
(section 4.1). A null `ctx` is the fatal failure (`none`). Otherwise the result pairs the
receiver as the call leaves it, which is the receiver unchanged, with the request that is
returned: a copy of the receiver whose context is `ctx`. -/
def SignRequest.WithContext (r : SignRequest) (ctx : context.Context) :
    Option (SignRequest × SignRequest) :=
  match ctx with
  | none => none
  | some c => some (r, { r with ctx := some c })

/-! ## Auxiliary facts about strings and quoting -/

/-- The characters `strconv.Quote` writes between the two quotes for the runes `l`. -/
def escapedRunes (printTable : Char → Bool) : List Char → List Char
  | [] => []
  | r :: l => escapedRune printTable r dquote ++ escapedRunes printTable l

theorem foldl_appendEscapedRune (printTable : Char → Bool) (l buf : List Char) :
    l.foldl (fun b r => appendEscapedRune printTable b r dquote) buf
      = buf ++ escapedRunes printTable l := by
  induction l generalizing buf with
  | nil => simp [escapedRunes]
  | cons r l ih =>
    rw [List.foldl_cons, ih]
    simp [appendEscapedRune, escapedRunes]

theorem Quote_data (printTable : Char → Bool) (s : String) :
    (Quote printTable s).data = dquote :: (escapedRunes printTable s.data ++ [dquote]) := by
  simp [Quote, foldl_appendEscapedRune]

theorem escapedRunes_of_plain (printTable : Char → Bool) (l : List Char)
    (h : ∀ r ∈ l, r ≠ dquote ∧ r ≠ backslash ∧ IsPrint printTable r = true) :
    escapedRunes printTable l = l := by
  induction l with
  | nil => rfl
  | cons r l ih =>
    have hr := h r (List.mem_cons_self r l)
    have hl : ∀ x ∈ l, x ≠ dquote ∧ x ≠ backslash ∧ IsPrint printTable x = true :=
      fun x hx => h x (List.mem_cons_of_mem r hx)
    simp [escapedRunes, escapedRune, hr.1, hr.2.1, hr.2.2, ih hl]

theorem infix_of_append (a b c : List Char) : b <:+: a ++ (b ++ c) :=
  ⟨a, c, by simp⟩

theorem timestamp_colon_ne_default (x : String) : "timestamp: " ++ x ≠ "timestamp error" := by
  intro h
  have h10 := congrArg (fun t : String => t.data.take 10) h
  simp at h10

theorem timestamp_colon_starts (x : String) :
    "timestamp".data <+: ("timestamp: " ++ x).data :=
  ⟨(": " ++ x).data, by simp⟩

theorem TimestampError_Error_cases (m : String) (d : ErrorValue) (hm : m ≠ "") :
    TimestampError.Error { Msg := m, Detail := some d }
      = "timestamp: " ++ m ++ ". Error: " ++ d.Error ∧
    TimestampError.Error { Msg := m, Detail := none } = "timestamp: " ++ m := by
  have hb : (m != "") = true := by simp [hm]
  unfold TimestampError.Error
  simp only [hb]
  exact ⟨trivial, trivial⟩

/-! ## Auxiliary facts about the signing-scheme policy -/

theorem authority_populated (signerInfo : SignerInfo)
    (hs : signerInfo.SignedAttributes.SigningScheme = SigningSchemeX509SigningAuthority)
    (ht : signerInfo.SignedAttributes.SigningTime.IsZero = false) :
    signerInfo.AuthenticSigningTime = .ok signerInfo.SignedAttributes.SigningTime := by
  simp [SignerInfo.AuthenticSigningTime, hs, ht]

theorem authority_absent (signerInfo : SignerInfo)
    (hs : signerInfo.SignedAttributes.SigningScheme = SigningSchemeX509SigningAuthority)
    (ht : signerInfo.SignedAttributes.SigningTime.IsZero = true) :
    signerInfo.AuthenticSigningTime
      = .error (.signingTimeAbsent SigningSchemeX509SigningAuthority) := by
  simp [SignerInfo.AuthenticSigningTime, hs, ht]

theorem plain_scheme (signerInfo : SignerInfo)
    (hs : signerInfo.SignedAttributes.SigningScheme = SigningSchemeX509) :
    signerInfo.AuthenticSigningTime
      = .error (.authenticTimeNotSupported SigningSchemeX509) := by
  have hne : SigningSchemeX509 ≠ SigningSchemeX509SigningAuthority := by decide
  simp [SignerInfo.AuthenticSigningTime, hs, hne]

theorem other_scheme (signerInfo : SignerInfo)
    (h1 : signerInfo.SignedAttributes.SigningScheme ≠ SigningSchemeX509SigningAuthority)
    (h2 : signerInfo.SignedAttributes.SigningScheme ≠ SigningSchemeX509) :
    signerInfo.AuthenticSigningTime
      = .error (.unsupportedScheme signerInfo.SignedAttributes.SigningScheme) := by
  simp [SignerInfo.AuthenticSigningTime, h1, h2]

/-! ## Properties of the error taxonomy -/

/-- C1: for each of the three wrapping kinds (SignatureIntegrityError,
InvalidArgumentError, TimestampError) `Unwrap` returns exactly the cause the value was
built with, a present cause `c` as well as the absent one (`none`), whatever the other
fields `Param` and `Msg` hold. -/
theorem Unwrap_returns_cause (c : error) (p m : String) :
    SignatureIntegrityError.Unwrap { Err := c } = c ∧
    InvalidArgumentError.Unwrap { Param := p, Err := c } = c ∧
    TimestampError.Unwrap { Msg := m, Detail := c } = c :=
  ⟨rfl, rfl, rfl⟩

/-- C2: with an empty `Msg` each of the three message-only kinds returns its fixed default
string. -/
theorem empty_Msg_gives_default :
    InvalidSignatureError.Error { Msg := "" } = "signature envelope format is invalid" ∧
    UnsupportedSigningKeyError.Error { Msg := "" } = "signing key is not supported" ∧
    InvalidSignRequestError.Error { Msg := "" } = "SignRequest is invalid" :=
  ⟨rfl, rfl, rfl⟩

/-- C3 (as amended): a TimestampError with an empty `Msg` and no `Detail` returns the
default string "timestamp error"; with an empty `Msg` and a `Detail` present it returns
"timestamp: " followed by the message of the `Detail`, which is never the default string. -/
theorem TimestampError_empty_Msg (d : ErrorValue) :
    TimestampError.Error { Msg := "", Detail := none } = "timestamp error" ∧
    TimestampError.Error { Msg := "", Detail := some d } = "timestamp: " ++ d.Error ∧
    TimestampError.Error { Msg := "", Detail := some d } ≠ "timestamp error" :=
  ⟨rfl, rfl, timestamp_colon_ne_default d.Error⟩

/-- C3 fails as stated: with an empty `Msg` and a `Detail` whose message is "x" the result
is "timestamp: x", not the default string. -/
theorem TimestampError_empty_Msg_with_Detail :
    TimestampError.Error { Msg := "", Detail := some { ident := 0, message := "x" } }
      = "timestamp: x" ∧
    TimestampError.Error { Msg := "", Detail := some { ident := 0, message := "x" } }
      ≠ "timestamp error" := by
  decide

/-- C4 at its failing input: `Error()` of a SignatureIntegrityError built with no cause
panics (`none`), while it returns a message for every present cause, and the two other
wrapping kinds return a message when built with no cause. -/
theorem SignatureIntegrityError_nil_Err_panics :
    SignatureIntegrityError.Error { Err := none } = none ∧
    (∀ c : ErrorValue, SignatureIntegrityError.Error { Err := some c }
      = some ("signature is invalid. Error: " ++ c.Error)) ∧
    (∀ (printTable : Char → Bool) (p : String),
      InvalidArgumentError.Error printTable { Param := p, Err := none }
        = Quote printTable p ++ " param is invalid") ∧
    TimestampError.Error { Msg := "", Detail := none } = "timestamp error" :=
  ⟨rfl, fun _ => rfl, fun _ _ => rfl, rfl⟩

/-- C5 (as amended): for every valid UTF-8 string `s` (every `s : String`) the `%q`
rendering of `s`, `strconv.Quote(s)`, occurs as a contiguous substring of the message of
UnsupportedSignatureFormatError, UnsupportedSignatureAlgoError and DuplicateKeyError built
with `s`; and `s` itself occurs as a contiguous substring of the three messages whenever,
in addition, every character of `s` is printable (`strconv.IsPrint`) and is neither a
double quote nor a backslash. Strings that are not valid UTF-8 are outside the statement. -/
theorem identifier_in_message (printTable : Char → Bool) (s : String) :
    ((Quote printTable s).data
        <:+: (UnsupportedSignatureFormatError.Error printTable { MediaType := s }).data ∧
      (Quote printTable s).data
        <:+: (UnsupportedSignatureAlgoError.Error printTable { Alg := s }).data ∧
      (Quote printTable s).data
        <:+: (DuplicateKeyError.Error printTable { Key := s }).data) ∧
    ((∀ r ∈ s.data, r ≠ dquote ∧ r ≠ backslash ∧ IsPrint printTable r = true) →
      s.data <:+: (UnsupportedSignatureFormatError.Error printTable { MediaType := s }).data ∧
      s.data <:+: (UnsupportedSignatureAlgoError.Error printTable { Alg := s }).data ∧
      s.data <:+: (DuplicateKeyError.Error printTable { Key := s }).data) := by
  refine ⟨⟨?_, ?_, ?_⟩, fun h => ?_⟩
  · simp only [UnsupportedSignatureFormatError.Error, String.data_append, List.append_assoc]
    exact infix_of_append _ _ _
  · simp only [UnsupportedSignatureAlgoError.Error, String.data_append, List.append_assoc]
    exact infix_of_append _ _ _
  · simp only [DuplicateKeyError.Error, String.data_append, List.append_assoc]
    exact infix_of_append _ _ _
  · have hq : ∀ pre post : List Char,
        s.data <:+: pre ++ ((Quote printTable s).data ++ post) := by
      intro pre post
      rw [Quote_data, escapedRunes_of_plain printTable s.data h]
      exact ⟨pre ++ [dquote], [dquote] ++ post, by simp⟩
    refine ⟨?_, ?_, ?_⟩
    · simp only [UnsupportedSignatureFormatError.Error, String.data_append,
        List.append_assoc]
      exact hq _ _
    · simp only [UnsupportedSignatureAlgoError.Error, String.data_append, List.append_assoc]
      exact hq _ _
    · simp only [DuplicateKeyError.Error, String.data_append, List.append_assoc]
      exact hq _ _

/-- C5 at a concrete identifier: the media type, algorithm and key names below consist of
printable characters other than the double quote and the backslash, so each occurs in its
message. -/
theorem identifier_in_message_witness :
    "application/jose+json".data <:+: (UnsupportedSignatureFormatError.Error
      (fun _ => false) { MediaType := "application/jose+json" }).data ∧
    "application/jose+json".data <:+: (UnsupportedSignatureAlgoError.Error
      (fun _ => false) { Alg := "application/jose+json" }).data ∧
    "application/jose+json".data <:+: (DuplicateKeyError.Error
      (fun _ => false) { Key := "application/jose+json" }).data :=
  (identifier_in_message (fun _ => false) "application/jose+json").2 (by decide)

/-- C5 fails as stated: for the identifier consisting of one newline, `%q` prints the two
characters backslash and `n`, and none of the three messages contains a newline, whatever
the Unicode tables are. -/
theorem newline_identifier_not_in_message :
    ¬ ∃ printTable : Char → Bool,
      "\n".data <:+: (UnsupportedSignatureFormatError.Error printTable
        { MediaType := "\n" }).data ∨
      "\n".data <:+: (UnsupportedSignatureAlgoError.Error printTable { Alg := "\n" }).data ∨
      "\n".data <:+: (DuplicateKeyError.Error printTable { Key := "\n" }).data := by
  rintro ⟨printTable, h⟩
  have e1 : UnsupportedSignatureFormatError.Error printTable { MediaType := "\n" }
      = "signature envelope format with media type \"\\n\" is not supported" := by rfl
  have e2 : UnsupportedSignatureAlgoError.Error printTable { Alg := "\n" }
      = "signature algorithm \"\\n\" is not supported" := by rfl
  have e3 : DuplicateKeyError.Error printTable { Key := "\n" }
      = "repeated key: \"\\n\" exists." := by rfl
  rw [e1, e2, e3] at h
  revert h
  decide

/-- C6: for a non-empty `Msg` each of the three message-only kinds returns `Msg` itself,
unchanged; and `Error()` of these kinds is never the empty string, whatever `Msg` is. -/
theorem nonempty_Msg_returned (m : String) (h : m ≠ "") :
    (InvalidSignatureError.Error { Msg := m } = m ∧
      UnsupportedSigningKeyError.Error { Msg := m } = m ∧
      InvalidSignRequestError.Error { Msg := m } = m) ∧
    (∀ e : InvalidSignatureError, e.Error ≠ "") ∧
    (∀ e : UnsupportedSigningKeyError, e.Error ≠ "") ∧
    (∀ e : InvalidSignRequestError, e.Error ≠ "") := by
  refine ⟨⟨?_, ?_, ?_⟩, ?_, ?_, ?_⟩
  · simp [InvalidSignatureError.Error, h]
  · simp [UnsupportedSigningKeyError.Error, h]
  · simp [InvalidSignRequestError.Error, h]
  · intro e
    unfold InvalidSignatureError.Error
    by_cases hm : e.Msg = ""
    · simp [hm]
    · simp [hm]
  · intro e
    unfold UnsupportedSigningKeyError.Error
    by_cases hm : e.Msg = ""
    · simp [hm]
    · simp [hm]
  · intro e
    unfold InvalidSignRequestError.Error
    by_cases hm : e.Msg = ""
    · simp [hm]
    · simp [hm]

/-- C6 at the message "certificate chain is empty". -/
theorem nonempty_Msg_returned_witness :
    "certificate chain is empty" ≠ "" ∧
    InvalidSignatureError.Error { Msg := "certificate chain is empty" }
      = "certificate chain is empty" ∧
    UnsupportedSigningKeyError.Error { Msg := "certificate chain is empty" }
      = "certificate chain is empty" ∧
    InvalidSignRequestError.Error { Msg := "certificate chain is empty" }
      = "certificate chain is empty" :=
  ⟨by decide, (nonempty_Msg_returned "certificate chain is empty" (by decide)).1⟩

/-! ## Properties of the signing-scheme policy -/

/-- C7: under the scheme "notary.x509.signingAuthority" with a populated (non-zero) signing
time `t`, `AuthenticSigningTime` returns exactly `t` and no error. -/
theorem AuthenticSigningTime_signingAuthority (signerInfo : SignerInfo)
    (hs : signerInfo.SignedAttributes.SigningScheme = "notary.x509.signingAuthority")
    (ht : signerInfo.SignedAttributes.SigningTime.IsZero = false) :
    signerInfo.AuthenticSigningTime = .ok signerInfo.SignedAttributes.SigningTime :=
  authority_populated signerInfo hs ht

/-- C7 at the signing time 2023-01-01T00:00:00Z, which is 63808128000 seconds after the
zero instant. -/
theorem AuthenticSigningTime_signingAuthority_witness :
    SignerInfo.AuthenticSigningTime
      { SignedAttributes :=
          { SigningScheme := "notary.x509.signingAuthority"
            SigningTime := { nanos := 63808128000000000000 }
            ExtendedAttributes := [] }
        UnsignedAttributes := { TimestampSignature := none }
        CertificateChain := [] }
      = .ok { nanos := 63808128000000000000 } :=
  AuthenticSigningTime_signingAuthority _ rfl (by decide)

/-- C8: under the scheme "notary.x509.signingAuthority" with an absent (zero) signing time,
`AuthenticSigningTime` returns an error and no timestamp, and the message of that error is
`authentic signing time must be present under signing scheme
"notary.x509.signingAuthority"`. -/
theorem AuthenticSigningTime_signingAuthority_absent (unsupportedText : SigningScheme → String)
    (signerInfo : SignerInfo)
    (hs : signerInfo.SignedAttributes.SigningScheme = "notary.x509.signingAuthority")
    (ht : signerInfo.SignedAttributes.SigningTime.IsZero = true) :
    signerInfo.AuthenticSigningTime
      = .error (.signingTimeAbsent "notary.x509.signingAuthority") ∧
    (SigningTimeError.signingTimeAbsent "notary.x509.signingAuthority").Error unsupportedText
      = "authentic signing time must be present under signing scheme \"notary.x509.signingAuthority\"" :=
    ⟨authority_absent signerInfo hs ht, rfl⟩

/-- C8 at the signer info of the test: signing-authority scheme, no signing time. -/
theorem AuthenticSigningTime_signingAuthority_absent_witness :
    SignerInfo.AuthenticSigningTime
      { SignedAttributes :=
          { SigningScheme := "notary.x509.signingAuthority"
            SigningTime := { nanos := 0 }
            ExtendedAttributes := [] }
        UnsignedAttributes := { TimestampSignature := none }
        CertificateChain := [] }
      = .error (.signingTimeAbsent "notary.x509.signingAuthority") :=
  (AuthenticSigningTime_signingAuthority_absent (fun _ => "") _ rfl (by decide)).1

/-- C9: under the scheme "notary.x509", whatever the signing time and the unsigned
attributes are, `AuthenticSigningTime` returns an error and no timestamp, and the message
of that error is `authentic signing time not supported under signing scheme
"notary.x509"`. -/
theorem AuthenticSigningTime_x509 (unsupportedText : SigningScheme → String)
    (signerInfo : SignerInfo)
    (hs : signerInfo.SignedAttributes.SigningScheme = "notary.x509") :
    signerInfo.AuthenticSigningTime = .error (.authenticTimeNotSupported "notary.x509") ∧
    (SigningTimeError.authenticTimeNotSupported "notary.x509").Error unsupportedText
      = "authentic signing time not supported under signing scheme \"notary.x509\"" :=
  ⟨plain_scheme signerInfo hs, rfl⟩

/-- C9 at a signer info with the plain scheme, a populated signing time and a timestamp
token among its unsigned attributes. -/
theorem AuthenticSigningTime_x509_witness :
    SignerInfo.AuthenticSigningTime
      { SignedAttributes :=
          { SigningScheme := "notary.x509"
            SigningTime := { nanos := 63808128000000000000 }
            ExtendedAttributes := [] }
        UnsignedAttributes := { TimestampSignature := some [48, 130] }
        CertificateChain := [] }
      = .error (.authenticTimeNotSupported "notary.x509") :=
  (AuthenticSigningTime_x509 (fun _ => "") _ rfl).1

/-- C10: under a scheme that is neither "notary.x509.signingAuthority" nor "notary.x509",
`AuthenticSigningTime` returns an error and no timestamp, the error reports the scheme as
unsupported, and the outcome differs from every outcome under the two recognised schemes,
so from the "must be present" error and from the "not supported" error. -/
theorem AuthenticSigningTime_unrecognized (signerInfo : SignerInfo)
    (h1 : signerInfo.SignedAttributes.SigningScheme ≠ "notary.x509.signingAuthority")
    (h2 : signerInfo.SignedAttributes.SigningScheme ≠ "notary.x509") :
    signerInfo.AuthenticSigningTime
      = .error (.unsupportedScheme signerInfo.SignedAttributes.SigningScheme) ∧
    (∀ other : SignerInfo,
      other.SignedAttributes.SigningScheme = "notary.x509.signingAuthority" ∨
        other.SignedAttributes.SigningScheme = "notary.x509" →
      other.AuthenticSigningTime ≠ signerInfo.AuthenticSigningTime) := by
  have hres := other_scheme signerInfo h1 h2
  refine ⟨hres, fun other ho => ?_⟩
  rw [hres]
  rcases ho with ho | ho
  · cases hz : other.SignedAttributes.SigningTime.IsZero
    · rw [authority_populated other ho hz]
      simp
    · rw [authority_absent other ho hz]
      simp
  · rw [plain_scheme other ho]
    simp

/-- C10 at the scheme "notary.x509.unknown". -/
theorem AuthenticSigningTime_unrecognized_witness :
    SignerInfo.AuthenticSigningTime
      { SignedAttributes :=
          { SigningScheme := "notary.x509.unknown"
            SigningTime := { nanos := 63808128000000000000 }
            ExtendedAttributes := [] }
        UnsignedAttributes := { TimestampSignature := none }
        CertificateChain := [] }
      = .error (.unsupportedScheme "notary.x509.unknown") :=
  (AuthenticSigningTime_unrecognized _ (by decide) (by decide)).1

/-! ## Properties of the sign request -/

/-- C11: for every non-null context `c`, attaching `c` to the zero-valued request with
`WithContext` and reading it back with `Context` gives exactly `c`; and for every request
`r`, `WithContext` succeeds, leaves `r` as it was, and returns a request whose context is
`c` and whose signing parameters are those of `r`. -/
theorem WithContext_then_Context (r : SignRequest) (c : ContextValue) :
    (SignRequest.WithContext
        { KeyID := "", Algorithm := "", ExtendedAttributes := [], Expiry := none, ctx := none }
        (some c)).map (fun p => p.2.Context) = some (some c) ∧
    (∃ r2 : SignRequest, r.WithContext (some c) = some (r, r2) ∧
      r2.Context = some c ∧ r2.ctx = some c ∧
      r2.KeyID = r.KeyID ∧ r2.Algorithm = r.Algorithm ∧
      r2.ExtendedAttributes = r.ExtendedAttributes ∧ r2.Expiry = r.Expiry) :=
  ⟨rfl, { r with ctx := some c }, rfl, rfl, rfl, rfl, rfl, rfl, rfl⟩

/-- C12: a request that was never given a context returns the background context from
`Context`, which is not null; a request that carries the context `c` returns `c`. -/
theorem Context_of_request (k a : String) (x : List (String × String)) (e : Option Time)
    (c : ContextValue) :
    SignRequest.Context
        { KeyID := k, Algorithm := a, ExtendedAttributes := x, Expiry := e, ctx := none }
      = context.Background ∧
    context.Background ≠ none ∧
    SignRequest.Context
        { KeyID := k, Algorithm := a, ExtendedAttributes := x, Expiry := e, ctx := some c }
      = some c :=
  ⟨rfl, by simp [context.Background], rfl⟩

/-- C13: for every request `r`, `WithContext` with the null context fails fatally and
returns no request; and `WithContext` fails exactly when the supplied context is null. -/
theorem WithContext_nil_fails (r : SignRequest) :
    r.WithContext none = none ∧
    (∀ ctx : context.Context, r.WithContext ctx = none ↔ ctx = none) := by
  refine ⟨rfl, fun ctx => ?_⟩
  cases ctx with
  | none => simp [SignRequest.WithContext]
  | some c => simp [SignRequest.WithContext]

/-! ## Further properties of the error taxonomy -/

/-- C14: `Error()` of a TimestampError with message `m` and optional cause `d` is decided
by four cases: `m` non-empty with `d` present gives "timestamp: " + m + ". Error: " +
d.Error(), `m` non-empty with no cause gives "timestamp: " + m, `m` empty with `d` present
gives "timestamp: " + d.Error(), `m` empty with no cause gives "timestamp error"; and the
result of every TimestampError starts with "timestamp". -/
theorem TimestampError_four_cases (m : String) (d : ErrorValue) (hm : m ≠ "") :
    TimestampError.Error { Msg := m, Detail := some d }
      = "timestamp: " ++ m ++ ". Error: " ++ d.Error ∧
    TimestampError.Error { Msg := m, Detail := none } = "timestamp: " ++ m ∧
    TimestampError.Error { Msg := "", Detail := some d } = "timestamp: " ++ d.Error ∧
    TimestampError.Error { Msg := "", Detail := none } = "timestamp error" ∧
    (∀ e : TimestampError, "timestamp".data <+: e.Error.data) := by
  refine ⟨(TimestampError_Error_cases m d hm).1, (TimestampError_Error_cases m d hm).2,
    rfl, rfl, fun e => ?_⟩
  obtain ⟨msg, detail⟩ := e
  by_cases hmsg : msg = ""
  · subst hmsg
    cases detail with
    | none => exact ⟨" error".data, by decide⟩
    | some d2 => exact timestamp_colon_starts d2.Error
  · cases detail with
    | none =>
      rw [(TimestampError_Error_cases msg d hmsg).2]
      exact timestamp_colon_starts msg
    | some d2 =>
      rw [(TimestampError_Error_cases msg d2 hmsg).1, String.append_assoc,
        String.append_assoc]
      exact timestamp_colon_starts _

/-- C14 at the message "invalid token" and a cause whose message is "asn1: syntax error". -/
theorem TimestampError_four_cases_witness :
    TimestampError.Error
        { Msg := "invalid token", Detail := some { ident := 1, message := "asn1: syntax error" } }
      = "timestamp: invalid token. Error: asn1: syntax error" ∧
    TimestampError.Error { Msg := "invalid token", Detail := none }
      = "timestamp: invalid token" :=
  ⟨(TimestampError_four_cases "invalid token" { ident := 1, message := "asn1: syntax error" }
      (by decide)).1,
    (TimestampError_four_cases "invalid token" { ident := 1, message := "asn1: syntax error" }
      (by decide)).2.1⟩

/-- C15: `Error()` of an InvalidArgumentError with parameter name `p` and no cause is the
`%q` rendering of `p` followed by " param is invalid"; with the cause `c` it is that same
message followed by ". Error: " and c.Error(); so the message with no cause is the
beginning of the message with a cause. -/
theorem InvalidArgumentError_messages (printTable : Char → Bool) (p : String)
    (c : ErrorValue) :
    InvalidArgumentError.Error printTable { Param := p, Err := none }
      = Quote printTable p ++ " param is invalid" ∧
    InvalidArgumentError.Error printTable { Param := p, Err := some c }
      = InvalidArgumentError.Error printTable { Param := p, Err := none }
        ++ ". Error: " ++ c.Error ∧
    (InvalidArgumentError.Error printTable { Param := p, Err := none }).data
      <+: (InvalidArgumentError.Error printTable { Param := p, Err := some c }).data := by
  have h2 : InvalidArgumentError.Error printTable { Param := p, Err := some c }
      = InvalidArgumentError.Error printTable { Param := p, Err := none }
        ++ ". Error: " ++ c.Error := by
    apply String.ext
    simp [InvalidArgumentError.Error, String.data_append]
  refine ⟨rfl, h2, ?_⟩
  rw [h2]
  exact ⟨(". Error: " ++ c.Error).data, by simp [String.data_append]⟩

/-- C16: `Error()` of a SignatureIntegrityError with the cause `c` present returns
"signature is invalid. Error: " followed by c.Error(), so the message of the cause is the
end of the message of the wrapper. -/
theorem SignatureIntegrityError_message (c : ErrorValue) :
    SignatureIntegrityError.Error { Err := some c }
      = some ("signature is invalid. Error: " ++ c.Error) ∧
    c.Error.data <:+ ("signature is invalid. Error: " ++ c.Error).data :=
  ⟨rfl, "signature is invalid. Error: ".data, by simp⟩

/-- C17: `Error()` of a TimestampError is the default string "timestamp error" exactly when
its `Msg` is empty and its `Detail` is absent. -/
theorem TimestampError_default_iff (e : TimestampError) :
    e.Error = "timestamp error" ↔ e.Msg = "" ∧ e.Detail = none := by
  obtain ⟨msg, detail⟩ := e
  constructor
  · intro h
    by_cases hmsg : msg = ""
    · subst hmsg
      cases detail with
      | none => exact ⟨rfl, rfl⟩
      | some d => exact absurd h (timestamp_colon_ne_default d.Error)
    · cases detail with
      | none =>
        rw [(TimestampError_Error_cases msg { ident := 0, message := "" } hmsg).2] at h
        exact absurd h (timestamp_colon_ne_default msg)
      | some d =>
        rw [(TimestampError_Error_cases msg d hmsg).1, String.append_assoc,
          String.append_assoc] at h
        exact absurd h (timestamp_colon_ne_default _)
  · rintro ⟨hm, hd⟩
    simp only at hm hd
    subst hm
    subst hd
    rfl

/-- C18: SignatureNotFoundError and SignatureEnvelopeNotFoundError return the same message,
"signature envelope is not present". -/
theorem not_found_messages_agree :
    SignatureNotFoundError.Error {} = "signature envelope is not present" ∧
    SignatureEnvelopeNotFoundError.Error {} = "signature envelope is not present" ∧
    SignatureNotFoundError.Error {} = SignatureEnvelopeNotFoundError.Error {} :=
  ⟨rfl, rfl, rfl⟩

/-- C19: the message of a TimestampError does not determine its fields: for a non-empty
string `x`, the TimestampError with `Msg` = x and no cause and the TimestampError with an
empty `Msg` and a cause whose message is `x` return the same `Error()` string, while
`Unwrap` is absent for the first and present for the second. -/
theorem TimestampError_message_ambiguous (x : String) (i : Nat) (hx : x ≠ "") :
    TimestampError.Error { Msg := x, Detail := none }
      = TimestampError.Error { Msg := "", Detail := some { ident := i, message := x } } ∧
    TimestampError.Unwrap { Msg := x, Detail := none } = none ∧
    TimestampError.Unwrap { Msg := "", Detail := some { ident := i, message := x } }
      = some { ident := i, message := x } ∧
    TimestampError.Unwrap { Msg := x, Detail := none }
      ≠ TimestampError.Unwrap { Msg := "", Detail := some { ident := i, message := x } } := by
  refine ⟨?_, rfl, rfl, by simp [TimestampError.Unwrap]⟩
  rw [(TimestampError_Error_cases x { ident := i, message := x } hx).2]
  rfl

/-- C19 at the string "tsa unreachable". -/
theorem TimestampError_message_ambiguous_witness :
    TimestampError.Error { Msg := "tsa unreachable", Detail := none }
      = TimestampError.Error
          { Msg := "", Detail := some { ident := 7, message := "tsa unreachable" } } ∧
    TimestampError.Unwrap { Msg := "tsa unreachable", Detail := none }
      ≠ TimestampError.Unwrap
          { Msg := "", Detail := some { ident := 7, message := "tsa unreachable" } } :=
  ⟨(TimestampError_message_ambiguous "tsa unreachable" 7 (by decide)).1,
    (TimestampError_message_ambiguous "tsa unreachable" 7 (by decide)).2.2.2⟩

end signature
